import Mathlib

/-!
Verification of the reochat Matrix chat client (src/matrix.rs, src/lib.rs)
against its natural-language specification.

The Rust source is shallowly embedded: pure computations become Lean
functions; IO effects (file reads and writes, network calls of the Matrix
library) are modelled by explicit state passing plus environment records
that fix the outcome of each external call; a Rust panic is a distinguished
result constructor.  The session file on disk is modelled as an
`Option Json` value: `none` when the file does not exist and `some j` when
it exists and its contents parse as the JSON document `j`.
-/

namespace Reochat

/-- A small JSON value model, sufficient for the documents serde_json
produces for the session types of src/matrix.rs.  Objects are ordered
association lists, matching the order in which serde emits struct fields. -/
inductive Json where
  | null : Json
  | str : String → Json
  | num : Int → Json
  | bool : Bool → Json
  | arr : List Json → Json
  | obj : List (String × Json) → Json

/-- First value bound to a key in a JSON object, as serde_json field lookup. -/
def Json.lookup (j : Json) (key : String) : Option Json :=
  match j with
  | .obj fields => go fields
  | _ => none
where
  go : List (String × Json) → Option Json
    | [] => none
    | (k, v) :: rest => if k = key then some v else go rest

/-- ClientSession of src/matrix.rs lines 23 to 28: homeserver URL, path of
the encrypted sqlite store, and its passphrase.  PathBuf is modelled as the
rendered path string. -/
structure ClientSession where
  homeserver : String
  db_path : String
  passphrase : String
deriving DecidableEq, Repr

/-- MatrixSession, the library-defined user session blob.  The spec treats
it as an opaque value type with stable serialization, so it is modelled as
the JSON value the library serializes it to. -/
structure MatrixSession where
  blob : Json

/-- FullSession of src/matrix.rs lines 30 to 37: the document persisted to
the session file.  The sync_token field carries the serde attribute
skip_serializing_if Option.is_none. -/
structure FullSession where
  client_session : ClientSession
  user_session : MatrixSession
  sync_token : Option String

/-- Serde serialization of ClientSession: three string fields in
declaration order. -/
def serializeClientSession (cs : ClientSession) : Json :=
  Json.obj [("homeserver", Json.str cs.homeserver),
            ("db_path", Json.str cs.db_path),
            ("passphrase", Json.str cs.passphrase)]

/-- Serde deserialization of ClientSession: all three fields must be
present as strings. -/
def deserializeClientSession (j : Json) : Option ClientSession :=
  match j.lookup "homeserver", j.lookup "db_path", j.lookup "passphrase" with
  | some (.str h), some (.str d), some (.str p) =>
      some { homeserver := h, db_path := d, passphrase := p }
  | _, _, _ => none

/-- Serde serialization of FullSession.  The sync_token field is emitted
only when it is not none, per the skip_serializing_if attribute on
src/matrix.rs line 35. -/
def serializeFullSession (fs : FullSession) : Json :=
  Json.obj ([("client_session", serializeClientSession fs.client_session),
             ("user_session", fs.user_session.blob)] ++
            (match fs.sync_token with
             | none => []
             | some t => [("sync_token", Json.str t)]))

/-- Serde deserialization of FullSession: client_session and user_session
are mandatory; a missing or null sync_token field deserializes to none. -/
def deserializeFullSession (j : Json) : Option FullSession :=
  match deserializeClientSession ((j.lookup "client_session").getD Json.null) with
  | none => none
  | some cs =>
    match j.lookup "user_session" with
    | none => none
    | some us =>
      match j.lookup "sync_token" with
      | none => some { client_session := cs, user_session := ⟨us⟩, sync_token := none }
      | some .null => some { client_session := cs, user_session := ⟨us⟩, sync_token := none }
      | some (.str t) => some { client_session := cs, user_session := ⟨us⟩, sync_token := some t }
      | some _ => none

/-- Runtime errors of the embedded code, abstracting the error types that
anyhow collects in src/matrix.rs. -/
inductive RtError where
  | io
  | parse
  | authRejected
  | network
  | buildFatal
  | unknown
deriving DecidableEq, Repr

/-- The part of a sync response the code uses: its next_batch token
(matrix_sdk sync response). -/
structure SyncResponse where
  next_batch : String
deriving DecidableEq, Repr

/-- LoopCtrl of matrix_sdk, returned by the sync callback. -/
inductive LoopCtrl where
  | cont
  | brk
deriving DecidableEq, Repr

/-- persist_sync_token of src/matrix.rs lines 244 to 253: read the session
file, deserialize it as FullSession, set sync_token to Some of the given
token, serialize it back and rewrite the file.  The file is an Option Json:
none means the file does not exist and reading fails with an IO error;
writeOk fixes the outcome of the final fs.write call. -/
def persist_sync_token (file : Option Json) (writeOk : Bool) (sync_token : String) :
    Except RtError (Option Json) :=
  match file with
  | none => .error .io
  | some content =>
    match deserializeFullSession content with
    | none => .error .parse
    | some full_session =>
      let full_session2 := { full_session with sync_token := some sync_token }
      let serialized_session := serializeFullSession full_session2
      if writeOk then .ok (some serialized_session) else .error .io

/-- The per-response callback of the long-poll phase, src/matrix.rs lines
230 to 238: propagate a sync error, otherwise persist the next_batch token
(mapping a persist failure to Error.UnknownError) and instruct the loop to
continue.  It returns the new file state alongside the loop control. -/
def syncCallback (file : Option Json) (writeOk : Bool)
    (sync_result : Except RtError SyncResponse) :
    Except RtError (LoopCtrl × Option Json) :=
  match sync_result with
  | .error e => .error e
  | .ok response =>
    match persist_sync_token file writeOk response.next_batch with
    | .error _ => .error .unknown
    | .ok file2 => .ok (.cont, file2)

/-- The sync_with_result_callback loop of matrix_sdk, driven by the list of
sync results the homeserver would deliver: each result is fed to the
callback; a callback error terminates the loop and propagates; on Continue
the loop proceeds with the next result.  writeOks fixes the outcome of the
file write in each iteration. -/
def syncWithCallback (writeOks : Nat → Bool) (file : Option Json) :
    List (Except RtError SyncResponse) → Except RtError (Option Json)
  | [] => .ok file
  | r :: rest =>
    match syncCallback file (writeOks 0) r with
    | .error e => .error e
    | .ok (.brk, file2) => .ok file2
    | .ok (.cont, file2) => syncWithCallback (fun n => writeOks (n + 1)) file2 rest

/-- Sync settings: the part the code manipulates is the resume token. -/
structure SyncSettings where
  token : Option String
deriving DecidableEq, Repr

/-- Observable effects of the sync function, in order of occurrence. -/
inductive SyncEffect where
  | syncOnceCall (token : Option String)
  | persistToken (token : String)
  | registerHandler
  | liveSyncStart (token : Option String)
deriving DecidableEq, Repr

/-- The initial catch-up loop of src/matrix.rs lines 206 to 218, driven by
the list of sync_once outcomes: on error log and retry with unchanged
settings; on the first success return the response.  The trace records one
syncOnceCall per attempt.  The loop diverges (returns none) when no success
ever occurs, which the finite outcome list models by exhaustion. -/
def runInitialLoop (settings : SyncSettings) :
    List (Except RtError SyncResponse) → List SyncEffect × Option SyncResponse
  | [] => ([], none)
  | .ok response :: _ => ([.syncOnceCall settings.token], some response)
  | .error _ :: rest =>
    (.syncOnceCall settings.token :: (runInitialLoop settings rest).1,
     (runInitialLoop settings rest).2)

/-- sync of src/matrix.rs lines 190 to 242: build settings with the initial
token, run the catch-up loop, persist the first next_batch, register the
room-message handler, then enter the long-poll loop.  Returns the effect
trace and, when the catch-up loop terminates, the overall result carrying
the final session-file state.  writeOks fixes the file-write outcomes, the
catch-up persist first and then one per long-poll iteration. -/
def sync (file : Option Json) (writeOks : Nat → Bool) (initial_sync_token : Option String)
    (initResults liveResults : List (Except RtError SyncResponse)) :
    List SyncEffect × Option (Except RtError (Option Json)) :=
  let sync_settings : SyncSettings := { token := initial_sync_token }
  let tr := (runInitialLoop sync_settings initResults).1
  match (runInitialLoop sync_settings initResults).2 with
  | none => (tr, none)
  | some response =>
    let sync_settings2 : SyncSettings := { token := some response.next_batch }
    match persist_sync_token file (writeOks 0) response.next_batch with
    | .error e => (tr ++ [.persistToken response.next_batch], some (.error e))
    | .ok file2 =>
      (tr ++ [.persistToken response.next_batch, .registerHandler,
              .liveSyncStart sync_settings2.token],
       some (syncWithCallback (fun n => writeOks (n + 1)) file2 liveResults))

/-- Credentials of src/matrix.rs lines 39 to 42. -/
structure Credentials where
  username : String
  password : String
deriving DecidableEq, Repr

/-- Result of an embedded Rust computation: a value, an error returned with
the question-mark operator, or a panic with its message. -/
inductive Res (α : Type) where
  | ok : α → Res α
  | err : RtError → Res α
  | panicked : String → Res α
deriving DecidableEq, Repr

/-- True exactly on the panicked constructor. -/
def Res.isPanicked {α : Type} : Res α → Bool
  | .panicked _ => true
  | _ => false

/-- The matrix_sdk client as far as this code observes it: the parameters
it was built with (src/matrix.rs lines 159 to 162 and 83 to 86). -/
structure MatrixClient where
  homeserver : String
  db_path : String
  passphrase : String
deriving DecidableEq, Repr

/-- ClientBuildError variants distinguished by build_client, src/matrix.rs
lines 175 to 185. -/
inductive BuildError where
  | autoDiscovery
  | url
  | http
  | other
deriving DecidableEq, Repr

/-- The three transient variants retried by build_client (src/matrix.rs
lines 176 to 178). -/
def BuildError.transient : BuildError → Bool
  | .autoDiscovery => true
  | .url => true
  | .http => true
  | .other => false

/-- The 62-character alphabet of the rand Alphanumeric distribution. -/
def alphanumericChars : List Char :=
  "ABCDEFGHIJKLMNOPQRSTUVWXYZabcdefghijklmnopqrstuvwxyz0123456789".toList

/-- One draw from the Alphanumeric distribution, given the raw output of
the PRNG: a uniform index into the 62-character alphabet. -/
def sampleAlphanumeric (raw : Nat) : Char :=
  alphanumericChars.getD (raw % 62) 'A'

/-- A sampled alphanumeric string of the given length, reading the PRNG
stream rng from position start. -/
def genAlphanumericString (rng : Nat → Nat) (start len : Nat) : String :=
  String.mk ((List.range len).map (fun i => sampleAlphanumeric (rng (start + i))))

/-- str::split_once at the first colon: none when the string has no colon,
otherwise the parts before and after the first colon. -/
def splitOnceColon (s : String) : Option (String × String) :=
  match go s.toList with
  | none => none
  | some (a, b) => some (String.mk a, String.mk b)
where
  go : List Char → Option (List Char × List Char)
    | [] => none
    | c :: rest =>
      if c = ':' then some ([], rest)
      else
        match go rest with
        | none => none
        | some (a, b) => some (c :: a, b)

/-- The unbounded retry loop of build_client, src/matrix.rs lines 158 to
187, driven by the list of builder outcomes: success returns the client and
the ClientSession; a transient error retries; any other error is returned.
Returns none when the outcome list is exhausted, modelling divergence. -/
def buildLoop (homeserver db_path passphrase : String) :
    List (Except BuildError Unit) → Option (Res (MatrixClient × ClientSession))
  | [] => none
  | .ok _ :: _ =>
      some (.ok ({ homeserver := homeserver, db_path := db_path, passphrase := passphrase },
                 { homeserver := homeserver, db_path := db_path, passphrase := passphrase }))
  | .error e :: rest =>
      if e.transient then buildLoop homeserver db_path passphrase rest
      else some (.err .buildFatal)

/-- build_client of src/matrix.rs lines 134 to 188: draw the 7-character db
subfolder and then a 32-character passphrase from one freshly seeded PRNG,
derive the homeserver URL from the part of the username after the first
colon (unwrap panics when there is none), then run the builder retry loop.
The PRNG is the stream rng of raw draws; buildResults fixes the builder
outcomes. -/
def build_client (rng : Nat → Nat) (buildResults : List (Except BuildError Unit))
    (credentials : Credentials) (data_dir : String) :
    Option (Res (MatrixClient × ClientSession)) :=
  let db_subfolder := genAlphanumericString rng 0 7
  let db_path := data_dir ++ "/" ++ db_subfolder
  let passphrase := genAlphanumericString rng 7 32
  match splitOnceColon credentials.username with
  | none => some (.panicked "called Option::unwrap on a None value")
  | some (_, serverPart) =>
    let homeserver := "https://" ++ serverPart
    buildLoop homeserver db_path passphrase buildResults

/-- Observable effects of the authenticator, in order of occurrence. -/
inductive AuthEffect where
  | loginRequest (username password deviceName : String)
  | restoreSessionCall (user_session : MatrixSession)
  | writeSessionFile (content : Json)

/-- Environment of the fresh-login path: the PRNG stream and builder
outcomes for build_client, the outcome of the login_username call, the
MatrixSession the library holds once a login has succeeded, and the outcome
of the session-file write. -/
structure LoginEnv where
  rng : Nat → Nat
  buildResults : List (Except BuildError Unit)
  loginResult : Except RtError Unit
  userSession : MatrixSession
  writeOk : Bool

/-- MatrixAuth.session of the library: Some exactly when a login has
succeeded on this client. -/
def authSession (loginResult : Except RtError Unit) (us : MatrixSession) :
    Option MatrixSession :=
  match loginResult with
  | .ok _ => some us
  | .error _ => none

/-- login of src/matrix.rs lines 96 to 132: build the client, issue the
password login (the match on its result only logs, in both arms), fetch the
session with expect (panicking when it is None), serialize a FullSession
with sync_token none and write it to the session file.  Returns the result,
the session-file state after the call, and the effect trace; none models a
diverging build_client. -/
def login (env : LoginEnv) (credentials : Credentials) (data_dir : String)
    (file : Option Json) :
    Option (Res MatrixClient × Option Json × List AuthEffect) :=
  match build_client env.rng env.buildResults credentials data_dir with
  | none => none
  | some (.panicked m) => some (.panicked m, file, [])
  | some (.err e) => some (.err e, file, [])
  | some (.ok (client, client_session)) =>
    let tr := [AuthEffect.loginRequest credentials.username credentials.password "reochat"]
    match authSession env.loginResult env.userSession with
    | none => some (.panicked "A logged-in client should have a session", file, tr)
    | some user_session =>
      let full_session : FullSession :=
        { client_session := client_session, user_session := user_session, sync_token := none }
      let serialized_session := serializeFullSession full_session
      if env.writeOk then
        some (.ok client, some serialized_session, tr ++ [.writeSessionFile serialized_session])
      else
        some (.err .io, file, tr)

/-- Environment of the restore path: outcomes of the client build and of
the restore_session library call. -/
structure RestoreEnv where
  buildOk : Except RtError Unit
  restoreOk : Except RtError Unit

/-- restore_session of src/matrix.rs lines 70 to 94: read and deserialize
the session file, rebuild the client from the stored ClientSession, restore
the user session, and return the client with the persisted sync_token. -/
def restore_session (env : RestoreEnv) (file : Option Json) :
    Res (MatrixClient × Option String) × List AuthEffect :=
  match file with
  | none => (.err .io, [])
  | some content =>
    match deserializeFullSession content with
    | none => (.err .parse, [])
    | some full_session =>
      match env.buildOk with
      | .error e => (.err e, [])
      | .ok _ =>
        let client : MatrixClient :=
          { homeserver := full_session.client_session.homeserver,
            db_path := full_session.client_session.db_path,
            passphrase := full_session.client_session.passphrase }
        match env.restoreOk with
        | .error e => (.err e, [.restoreSessionCall full_session.user_session])
        | .ok _ => (.ok (client, full_session.sync_token),
                    [.restoreSessionCall full_session.user_session])

/-- Environment of run: the session-file state at startup and the
environments of both paths. -/
structure RunEnv where
  sessionFile : Option Json
  restoreEnv : RestoreEnv
  loginEnv : LoginEnv

/-- run of src/matrix.rs lines 44 to 55 (the authenticate operation): when
data/session exists restore the session from it, otherwise perform the
fresh password login and return a none sync token.  Returns the result, the
session-file state after the call, and the effect trace; none models a
diverging build_client inside login. -/
def run (env : RunEnv) (credentials : Credentials) :
    Option (Res (MatrixClient × Option String) × Option Json × List AuthEffect) :=
  match env.sessionFile with
  | some content =>
    some ((restore_session env.restoreEnv (some content)).1, some content,
          (restore_session env.restoreEnv (some content)).2)
  | none =>
    match login env.loginEnv credentials "data" none with
    | none => none
    | some (r, file2, tr) =>
      some ((match r with
             | .ok client => .ok (client, none)
             | .err e => .err e
             | .panicked m => .panicked m), file2, tr)

/-- Message of src/lib.rs lines 34 to 39 (the UIMessage of the spec).  The
wall-clock timestamp is a Nat tick. -/
structure Message where
  sender : String
  contents : String
  timestamp : Nat
deriving DecidableEq, Repr

/-- ClientMessage of src/lib.rs lines 53 to 61, the UI event alphabet.  The
LoggedIn payload carries the client and the optional sync token; the source
variant named None is embedded as noneMsg. -/
inductive ClientMessage where
  | composerTyped (s : String)
  | messageSubmitted
  | loggedIn (client : MatrixClient) (sync_token : Option String)
  | failedLogin
  | newMessage (message : Message)
  | noneMsg
deriving DecidableEq, Repr

/-- The message types of a Matrix room message the handler distinguishes:
plain text with its body, or anything else. -/
inductive MessageType where
  | text (body : String)
  | image
  | notice
  | emote
  | otherType
deriving DecidableEq, Repr

/-- The fields of OriginalSyncRoomMessageEvent the handler reads. -/
structure RoomMessageEvent where
  sender : String
  msgtype : MessageType
deriving DecidableEq, Repr

/-- RoomState of matrix_sdk. -/
inductive RoomState where
  | joined
  | left
  | invited
  | knocked
deriving DecidableEq, Repr

/-- The room as the handler observes it: its state, the authenticated user
id of the owning client (room.client().user_id(), unwrapped), the display
name lookup outcome (none models the error branch) and the room id. -/
structure Room where
  state : RoomState
  clientUserId : Option String
  displayNameResult : Option String
  roomId : String
deriving DecidableEq, Repr

/-- on_room_message of src/matrix.rs lines 255 to 290: drop the event
unless the room is joined, the sender differs from the authenticated user
(whose id is unwrapped, panicking when absent) and the message type is
plain text; then build a Message from the sender, the text body and the
current wall clock, and send it on the channel.  The channel is the list of
messages sent so far; a send appends. -/
def on_room_message (event : RoomMessageEvent) (room : Room) (now : Nat)
    (chan : List ClientMessage) : Res (List ClientMessage) :=
  if room.state ≠ RoomState.joined then .ok chan
  else
    match room.clientUserId with
    | none => .panicked "called Option::unwrap on a None value"
    | some uid =>
      if uid = event.sender then .ok chan
      else
        match event.msgtype with
        | .text body =>
          let message : Message :=
            { sender := event.sender, contents := body, timestamp := now }
          .ok (chan ++ [ClientMessage.newMessage message])
        | _ => .ok chan

/-- The iced commands the update function issues, as the UI shell uses
them: the empty command, a batch, the scroll-to-end snap, the spawned
Outbound Dispatcher send, and the spawned sync event loop. -/
inductive UICommand where
  | none
  | batch (cmds : List UICommand)
  | scrollSnapToEnd
  | performSendMessage (client : MatrixClient) (roomid : String) (content : String)
  | performStartEventLoop (client : MatrixClient) (sync_token : Option String)

/-- The Client application state of src/lib.rs lines 41 to 51 (channel
handles omitted: they are opaque to update). -/
structure UIClient where
  username : String
  compose_value : String
  messages : List Message
  client : Option MatrixClient
  sync_token : Option String
  roomid : String

/-- update of src/lib.rs lines 150 to 207, with the wall clock passed
explicitly.  On MessageSubmitted with an empty composer nothing happens; on
non-empty text the local echo Message is appended to the scrollback, the
composer is cleared, and the command is a batch of the scroll snap and the
spawned send when a client is present, the scroll snap alone otherwise. -/
def update (st : UIClient) (now : Nat) (message : ClientMessage) :
    UIClient × UICommand :=
  match message with
  | .composerTyped s => ({ st with compose_value := s }, .none)
  | .messageSubmitted =>
    if st.compose_value = "" then (st, .none)
    else
      let m : Message :=
        { sender := st.username, contents := st.compose_value, timestamp := now }
      let st2 := { st with messages := st.messages ++ [m], compose_value := "" }
      match st.client with
      | some client =>
        (st2, .batch [.scrollSnapToEnd,
                      .performSendMessage client st.roomid m.contents])
      | none => (st2, .scrollSnapToEnd)
  | .loggedIn client sync_token =>
    ({ st with client := some client, sync_token := sync_token },
     .performStartEventLoop client sync_token)
  | .newMessage m =>
    ({ st with messages := st.messages ++ [m] }, .scrollSnapToEnd)
  | .failedLogin => (st, .none)
  | .noneMsg => (st, .none)

/-- True when the command tree contains a spawned Outbound Dispatcher
send. -/
def UICommand.spawnsSend : UICommand → Bool
  | .performSendMessage _ _ _ => true
  | .batch cmds => go cmds
  | _ => false
where
  go : List UICommand → Bool
    | [] => false
    | c :: rest => c.spawnsSend || go rest

/-! Sample values used by witnesses. -/

/-- A sample ClientSession for witnesses. -/
def sampleClientSession : ClientSession :=
  { homeserver := "https://example.org", db_path := "data/AbCdEfG",
    passphrase := "0123456789abcdefghijklmnopqrstuv" }

/-- A sample user session blob for witnesses. -/
def sampleUserSession : MatrixSession :=
  ⟨Json.obj [("user_id", Json.str "@alice:example.org"),
             ("device_id", Json.str "REOCHAT1"),
             ("access_token", Json.str "tok")]⟩

/-- A sample FullSession without a sync token. -/
def sampleFullSession : FullSession :=
  { client_session := sampleClientSession, user_session := sampleUserSession,
    sync_token := none }

/-! Helper lemmas shared between claims. -/

/-- Deserializing a serialized FullSession recovers it. -/
theorem deserialize_serialize_fullSession (fs : FullSession) :
    deserializeFullSession (serializeFullSession fs) = some fs := by
  obtain ⟨⟨h, d, p⟩, ⟨us⟩, tok⟩ := fs
  cases tok <;>
    simp [serializeFullSession, serializeClientSession, deserializeFullSession,
          deserializeClientSession, Json.lookup, Json.lookup.go]

/-- The serialized document has a sync_token field exactly when the value
has one. -/
theorem serialize_token_field (fs : FullSession) :
    ((serializeFullSession fs).lookup "sync_token").isSome = fs.sync_token.isSome := by
  obtain ⟨⟨h, d, p⟩, ⟨us⟩, tok⟩ := fs
  cases tok <;>
    simp [serializeFullSession, serializeClientSession, Json.lookup, Json.lookup.go]

/-- A successful persist_sync_token rewrites the parsed prior document with
only the sync_token field replaced. -/
theorem persist_ok_shape (content : Json) (fs : FullSession) (writeOk : Bool)
    (token : String) (file2 : Option Json)
    (hparse : deserializeFullSession content = some fs)
    (hok : persist_sync_token (some content) writeOk token = .ok file2) :
    writeOk = true ∧
    file2 = some (serializeFullSession { fs with sync_token := some token }) := by
  simp only [persist_sync_token, hparse] at hok
  cases writeOk with
  | true => simpa using hok.symm
  | false => simp at hok

/-! C8 -/

/-- C8: for every well-formed FullSession value, deserializing the JSON
produced by serializing it yields the value back, and the serialized
document contains a sync_token field exactly when the sync_token is not
none. -/
theorem fullSession_roundtrip (fs : FullSession) :
    deserializeFullSession (serializeFullSession fs) = some fs ∧
    ((serializeFullSession fs).lookup "sync_token").isSome = fs.sync_token.isSome :=
  ⟨deserialize_serialize_fullSession fs, serialize_token_field fs⟩

/-! C9 -/

/-- C9: for every well-formed prior content of the session file and every
token, a successful persist_sync_token leaves the stored client_session and
user_session unchanged and only replaces the sync_token field with Some of
the given token. -/
theorem persist_sync_token_frame (content : Json) (fs : FullSession) (writeOk : Bool)
    (token : String) (file2 : Option Json)
    (hparse : deserializeFullSession content = some fs)
    (hok : persist_sync_token (some content) writeOk token = .ok file2) :
    ∃ j2, file2 = some j2 ∧
      deserializeFullSession j2 =
        some { client_session := fs.client_session,
               user_session := fs.user_session,
               sync_token := some token } := by
  obtain ⟨-, h2⟩ := persist_ok_shape content fs writeOk token file2 hparse hok
  exact ⟨_, h2, deserialize_serialize_fullSession _⟩

/-- Witness for C9 at a concrete session file and token. -/
theorem persist_sync_token_frame_witness :
    ∃ j2, (some (serializeFullSession { sampleFullSession with sync_token := some "T1" })
            : Option Json) = some j2 ∧
      deserializeFullSession j2 =
        some { client_session := sampleFullSession.client_session,
               user_session := sampleFullSession.user_session,
               sync_token := some "T1" } :=
  persist_sync_token_frame (serializeFullSession sampleFullSession) sampleFullSession
    true "T1" (some (serializeFullSession { sampleFullSession with sync_token := some "T1" }))
    (by rfl) (by rfl)

/-- A successful persist_sync_token yields a file whose parsed sync_token
is Some of the given token. -/
theorem persist_ok_token (file : Option Json) (writeOk : Bool) (token : String)
    (file2 : Option Json)
    (hok : persist_sync_token file writeOk token = .ok file2) :
    ∃ j2 fs2, file2 = some j2 ∧ deserializeFullSession j2 = some fs2 ∧
      fs2.sync_token = some token := by
  cases file with
  | none => simp [persist_sync_token] at hok
  | some content =>
    cases hparse : deserializeFullSession content with
    | none => simp [persist_sync_token, hparse] at hok
    | some fs =>
      obtain ⟨-, h2⟩ := persist_ok_shape content fs writeOk token file2 hparse hok
      exact ⟨_, _, h2, deserialize_serialize_fullSession _, rfl⟩

/-! C2 -/

/-- C2: in the long-poll phase, each response's next_batch is persisted
before the loop is instructed to continue, and the loop only proceeds to
the next iteration on a file state carrying the persisted token; a sync
error or a persist failure makes the callback return an error which
terminates the loop and propagates. -/
theorem sync_loop_persist_before_continue
    (writeOks : Nat → Bool) (file : Option Json)
    (r : Except RtError SyncResponse) (rest : List (Except RtError SyncResponse)) :
    (∀ e, r = .error e → syncWithCallback writeOks file (r :: rest) = .error e) ∧
    (∀ response, r = .ok response →
      ((∃ e, persist_sync_token file (writeOks 0) response.next_batch = .error e) →
        syncWithCallback writeOks file (r :: rest) = .error .unknown) ∧
      (∀ file2, persist_sync_token file (writeOks 0) response.next_batch = .ok file2 →
        syncCallback file (writeOks 0) r = .ok (.cont, file2) ∧
        (∃ j2 fs2, file2 = some j2 ∧ deserializeFullSession j2 = some fs2 ∧
          fs2.sync_token = some response.next_batch) ∧
        syncWithCallback writeOks file (r :: rest) =
          syncWithCallback (fun n => writeOks (n + 1)) file2 rest)) := by
  refine ⟨?_, ?_⟩
  · rintro e rfl
    simp [syncWithCallback, syncCallback]
  · rintro response rfl
    refine ⟨?_, ?_⟩
    · rintro ⟨e, he⟩
      simp [syncWithCallback, syncCallback, he]
    · intro file2 hp
      exact ⟨by simp [syncCallback, hp], persist_ok_token _ _ _ _ hp,
             by simp [syncWithCallback, syncCallback, hp]⟩

/-- Witness for C2 at a concrete file state and a single successful sync
response. -/
theorem sync_loop_persist_before_continue_witness :
    syncCallback (some (serializeFullSession sampleFullSession)) true
        (Except.ok ⟨"T1"⟩) =
      .ok (LoopCtrl.cont,
           some (serializeFullSession { sampleFullSession with sync_token := some "T1" })) ∧
    (∃ j2 fs2,
      (some (serializeFullSession { sampleFullSession with sync_token := some "T1" })
        : Option Json) = some j2 ∧
      deserializeFullSession j2 = some fs2 ∧ fs2.sync_token = some "T1") ∧
    syncWithCallback (fun _ => true) (some (serializeFullSession sampleFullSession))
        [Except.ok ⟨"T1"⟩] =
      syncWithCallback (fun n => (fun _ => true) (n + 1))
        (some (serializeFullSession { sampleFullSession with sync_token := some "T1" })) [] :=
  ((sync_loop_persist_before_continue (fun _ => true)
      (some (serializeFullSession sampleFullSession)) (Except.ok ⟨"T1"⟩) []).2
    ⟨"T1"⟩ rfl).2 _ (by rfl)

/-- When the catch-up loop never sees a success, every outcome it was fed
was an error. -/
theorem runInitialLoop_none_all_errors (s : SyncSettings)
    (results : List (Except RtError SyncResponse))
    (h : (runInitialLoop s results).2 = none) :
    ∀ r ∈ results, ∃ e, r = .error e := by
  induction results with
  | nil => simp
  | cons r rest ih =>
    cases r with
    | ok response => simp [runInitialLoop] at h
    | error e =>
      intro x hx
      rcases List.mem_cons.mp hx with hx | hx
      · exact ⟨e, hx⟩
      · exact ih (by simpa [runInitialLoop] using h) x hx

/-- When the catch-up loop returns a response, that response is the first
successful outcome: some position k holds it, every earlier position holds
an error, and the loop issued exactly k plus one sync_once calls, all with
the unchanged initial token. -/
theorem runInitialLoop_some_spec (s : SyncSettings)
    (results : List (Except RtError SyncResponse)) (response : SyncResponse)
    (h : (runInitialLoop s results).2 = some response) :
    ∃ k, results.get? k = some (.ok response) ∧
      (∀ i, i < k → ∃ e, results.get? i = some (.error e)) ∧
      (runInitialLoop s results).1 =
        List.replicate (k + 1) (.syncOnceCall s.token) := by
  induction results with
  | nil => simp [runInitialLoop] at h
  | cons r rest ih =>
    cases r with
    | ok response0 =>
      simp only [runInitialLoop, Option.some.injEq] at h
      subst h
      exact ⟨0, by simp, by simp, by simp [runInitialLoop, List.replicate]⟩
    | error e =>
      obtain ⟨k, hk, hlt, htr⟩ := ih (by simpa [runInitialLoop] using h)
      refine ⟨k + 1, by simpa using hk, ?_, ?_⟩
      · intro i hi
        cases i with
        | zero => exact ⟨e, by simp⟩
        | succ j => simpa using hlt j (Nat.lt_of_succ_lt_succ hi)
      · simp [runInitialLoop, htr, List.replicate]

/-! C5 -/

/-- C5: the initial catch-up loop exits only after a successful sync_once,
retrying on every error with the unchanged initial token; on the first
success the settings token becomes the returned next_batch, exactly that
token is persisted, and the room-message handler is registered only after
the loop has exited (its registration effect follows every sync_once call
in the trace, and is absent when the persist fails). -/
theorem sync_catchup_then_register
    (file : Option Json) (writeOks : Nat → Bool) (t0 : Option String)
    (initResults liveResults : List (Except RtError SyncResponse)) :
    ((runInitialLoop ⟨t0⟩ initResults).2 = none →
       (∀ r ∈ initResults, ∃ e, r = .error e) ∧
       (sync file writeOks t0 initResults liveResults).2 = none) ∧
    (∀ response, (runInitialLoop ⟨t0⟩ initResults).2 = some response →
       ∃ k, initResults.get? k = some (.ok response) ∧
         (∀ i, i < k → ∃ e, initResults.get? i = some (.error e)) ∧
         ((∃ e, persist_sync_token file (writeOks 0) response.next_batch = .error e ∧
             sync file writeOks t0 initResults liveResults =
               (List.replicate (k + 1) (.syncOnceCall t0) ++
                  [.persistToken response.next_batch],
                some (.error e))) ∨
          (∃ file2, persist_sync_token file (writeOks 0) response.next_batch = .ok file2 ∧
             sync file writeOks t0 initResults liveResults =
               (List.replicate (k + 1) (.syncOnceCall t0) ++
                  [.persistToken response.next_batch, .registerHandler,
                   .liveSyncStart (some response.next_batch)],
                some (syncWithCallback (fun n => writeOks (n + 1)) file2 liveResults))))) := by
  constructor
  · intro hnone
    exact ⟨runInitialLoop_none_all_errors _ _ hnone, by simp [sync, hnone]⟩
  · intro response hsome
    obtain ⟨k, hk, hlt, htr⟩ := runInitialLoop_some_spec ⟨t0⟩ initResults response hsome
    refine ⟨k, hk, hlt, ?_⟩
    cases hp : persist_sync_token file (writeOks 0) response.next_batch with
    | error e => exact Or.inl ⟨e, rfl, by simp [sync, hsome, hp, htr]⟩
    | ok file2 => exact Or.inr ⟨file2, rfl, by simp [sync, hsome, hp, htr]⟩

/-- Witness for C5: one transient failure followed by a success over a
concrete session file. -/
theorem sync_catchup_then_register_witness :
    ∃ k, ([Except.error RtError.network, Except.ok ⟨"T0"⟩]
            : List (Except RtError SyncResponse)).get? k =
          some (.ok ⟨"T0"⟩) ∧
      (∀ i, i < k → ∃ e, ([Except.error RtError.network, Except.ok ⟨"T0"⟩]
            : List (Except RtError SyncResponse)).get? i = some (.error e)) ∧
      ((∃ e, persist_sync_token (some (serializeFullSession sampleFullSession))
              ((fun _ => true) 0) (SyncResponse.next_batch ⟨"T0"⟩) = .error e ∧
          sync (some (serializeFullSession sampleFullSession)) (fun _ => true) none
              [Except.error RtError.network, Except.ok ⟨"T0"⟩] [] =
            (List.replicate (k + 1) (.syncOnceCall none) ++
               [.persistToken (SyncResponse.next_batch ⟨"T0"⟩)],
             some (.error e))) ∨
       (∃ file2, persist_sync_token (some (serializeFullSession sampleFullSession))
              ((fun _ => true) 0) (SyncResponse.next_batch ⟨"T0"⟩) = .ok file2 ∧
          sync (some (serializeFullSession sampleFullSession)) (fun _ => true) none
              [Except.error RtError.network, Except.ok ⟨"T0"⟩] [] =
            (List.replicate (k + 1) (.syncOnceCall none) ++
               [.persistToken (SyncResponse.next_batch ⟨"T0"⟩), .registerHandler,
                .liveSyncStart (some (SyncResponse.next_batch ⟨"T0"⟩))],
             some (syncWithCallback (fun n => (fun _ => true) (n + 1)) file2 [])))) :=
  (sync_catchup_then_register (some (serializeFullSession sampleFullSession))
      (fun _ => true) none [Except.error RtError.network, Except.ok ⟨"T0"⟩] []).2
    ⟨"T0"⟩ (by rfl)

/-- Splitting succeeds exactly at the first colon: the prefix is
colon-free and the string is the prefix, the colon, then the suffix. -/
theorem splitOnceColon_go_spec (l : List Char) (a b : List Char)
    (h : splitOnceColon.go l = some (a, b)) :
    l = a ++ ':' :: b ∧ ':' ∉ a := by
  induction l generalizing a b with
  | nil => simp [splitOnceColon.go] at h
  | cons c rest ih =>
    by_cases hc : c = ':'
    · subst hc
      simp only [splitOnceColon.go, if_pos rfl, Option.some.injEq, Prod.mk.injEq] at h
      obtain ⟨rfl, rfl⟩ := h.symm
      simp
    · simp only [splitOnceColon.go, if_neg hc] at h
      cases hrec : splitOnceColon.go rest with
      | none => rw [hrec] at h; simp at h
      | some ab =>
        obtain ⟨a0, b0⟩ := ab
        rw [hrec] at h
        simp only [Option.some.injEq, Prod.mk.injEq] at h
        obtain ⟨rfl, rfl⟩ := h.symm
        obtain ⟨h1, h2⟩ := ih a0 b0 hrec
        subst h1
        refine ⟨rfl, ?_⟩
        intro hmem
        rcases List.mem_cons.mp hmem with hx | hx
        · exact hc hx.symm
        · exact h2 hx

/-- Splitting fails exactly when the string has no colon. -/
theorem splitOnceColon_go_none (l : List Char) :
    splitOnceColon.go l = none ↔ ':' ∉ l := by
  induction l with
  | nil => simp [splitOnceColon.go]
  | cons c rest ih =>
    by_cases hc : c = ':'
    · subst hc; simp [splitOnceColon.go]
    · cases hrec : splitOnceColon.go rest with
      | none => simp [splitOnceColon.go, hc, hrec, ih.mp hrec, Ne.symm hc]
      | some ab =>
        obtain ⟨a0, b0⟩ := ab
        have hmem : ':' ∈ rest := by
          by_contra hni
          rw [ih.mpr hni] at hrec
          exact Option.noConfusion hrec
        simp only [splitOnceColon.go, if_neg hc, hrec]
        constructor
        · intro hfalse; exact Option.noConfusion hfalse
        · intro hni; exact absurd (List.mem_cons_of_mem c hmem) hni

/-- String-level reading of a successful splitOnceColon. -/
theorem splitOnceColon_spec (s : String) (a b : String)
    (h : splitOnceColon s = some (a, b)) :
    s.toList = a.toList ++ ':' :: b.toList ∧ ':' ∉ a.toList := by
  unfold splitOnceColon at h
  cases hgo : splitOnceColon.go s.toList with
  | none => rw [hgo] at h; simp at h
  | some ab =>
    obtain ⟨la, lb⟩ := ab
    rw [hgo] at h
    simp only [Option.some.injEq, Prod.mk.injEq] at h
    obtain ⟨rfl, rfl⟩ := h.symm
    simpa using splitOnceColon_go_spec s.toList la lb hgo

/-- A successful buildLoop returns the client and ClientSession assembled
from exactly the parameters fixed before the loop. -/
theorem buildLoop_ok_spec (h d p : String) (brs : List (Except BuildError Unit))
    (client : MatrixClient) (cs : ClientSession)
    (hok : buildLoop h d p brs = some (.ok (client, cs))) :
    client = ⟨h, d, p⟩ ∧ cs = ⟨h, d, p⟩ := by
  induction brs with
  | nil => simp [buildLoop] at hok
  | cons r rest ih =>
    cases r with
    | ok u =>
      simp only [buildLoop, Option.some.injEq, Res.ok.injEq, Prod.mk.injEq] at hok
      exact ⟨hok.1.symm, hok.2.symm⟩
    | error e =>
      by_cases ht : e.transient
      · exact ih (by simpa [buildLoop, ht] using hok)
      · simp [buildLoop, ht] at hok

/-- buildLoop never panics. -/
theorem buildLoop_not_panicked (h d p : String) (brs : List (Except BuildError Unit))
    (r : Res (MatrixClient × ClientSession)) (hr : buildLoop h d p brs = some r) :
    r.isPanicked = false := by
  induction brs generalizing r with
  | nil => simp [buildLoop] at hr
  | cons x rest ih =>
    cases x with
    | ok u =>
      simp only [buildLoop, Option.some.injEq] at hr
      subst hr; rfl
    | error e =>
      by_cases ht : e.transient
      · exact ih r (by simpa [buildLoop, ht] using hr)
      · simp only [buildLoop, ht, Bool.false_eq_true, if_false, Option.some.injEq] at hr
        subst hr; rfl

/-- The sampled length of a generated string equals the requested length. -/
theorem genAlphanumericString_length (rng : Nat → Nat) (start len : Nat) :
    (genAlphanumericString rng start len).length = len := by
  simp [genAlphanumericString, String.length]

/-- Every Alphanumeric draw lands in the 62-character alphabet. -/
theorem sampleAlphanumeric_mem (raw : Nat) :
    sampleAlphanumeric raw ∈ alphanumericChars := by
  unfold sampleAlphanumeric
  have hlen : raw % 62 < alphanumericChars.length := by
    have h62 : raw % 62 < 62 := Nat.mod_lt _ (by norm_num)
    simpa [alphanumericChars] using h62
  rw [List.getD_eq_getElem alphanumericChars 'A' hlen]
  exact List.getElem_mem hlen

/-- The characters of a generated string, read off the sampling map. -/
theorem genAlphanumericString_toList (rng : Nat → Nat) (start len : Nat) :
    (genAlphanumericString rng start len).toList =
      (List.range len).map (fun i => sampleAlphanumeric (rng (start + i))) := rfl

/-- Every character of a generated string is alphanumeric. -/
theorem genAlphanumericString_mem (rng : Nat → Nat) (start len : Nat) :
    ∀ c ∈ (genAlphanumericString rng start len).toList, c ∈ alphanumericChars := by
  intro c hc
  rw [genAlphanumericString_toList] at hc
  obtain ⟨i, -, rfl⟩ := List.mem_map.mp hc
  exact sampleAlphanumeric_mem _

/-! C6 -/

/-- C6: a successful build_client for a username containing a colon returns
a ClientSession whose homeserver is https:// followed by the part of the
username after the first colon, whose db_path is the data dir joined with a
7-character alphanumeric subfolder, and whose passphrase is a 32-character
alphanumeric string; the random values are drawn once before the retry loop
and every successful run with the same PRNG stream returns the same
ClientSession, whatever the builder outcomes were. -/
theorem build_client_session_shape
    (rng : Nat → Nat) (brs : List (Except BuildError Unit)) (credentials : Credentials)
    (data_dir : String) (client : MatrixClient) (cs : ClientSession) (a b : String)
    (hsplit : splitOnceColon credentials.username = some (a, b))
    (hok : build_client rng brs credentials data_dir = some (.ok (client, cs))) :
    credentials.username.toList = a.toList ++ ':' :: b.toList ∧
    ':' ∉ a.toList ∧
    cs.homeserver = "https://" ++ b ∧
    cs.db_path = data_dir ++ "/" ++ genAlphanumericString rng 0 7 ∧
    (genAlphanumericString rng 0 7).length = 7 ∧
    (∀ c ∈ (genAlphanumericString rng 0 7).toList, c ∈ alphanumericChars) ∧
    cs.passphrase = genAlphanumericString rng 7 32 ∧
    (genAlphanumericString rng 7 32).length = 32 ∧
    (∀ c ∈ (genAlphanumericString rng 7 32).toList, c ∈ alphanumericChars) ∧
    (∀ brs2 client2 cs2,
      build_client rng brs2 credentials data_dir = some (.ok (client2, cs2)) →
        cs2 = cs) := by
  have hsp := splitOnceColon_spec credentials.username a b hsplit
  unfold build_client at hok
  rw [hsplit] at hok
  obtain ⟨-, hcs⟩ := buildLoop_ok_spec _ _ _ _ _ _ hok
  subst hcs
  refine ⟨hsp.1, hsp.2, rfl, rfl, genAlphanumericString_length rng 0 7,
          genAlphanumericString_mem rng 0 7, rfl, genAlphanumericString_length rng 7 32,
          genAlphanumericString_mem rng 7 32, ?_⟩
  intro brs2 client2 cs2 hok2
  unfold build_client at hok2
  rw [hsplit] at hok2
  exact (buildLoop_ok_spec _ _ _ _ _ _ hok2).2

/-- Witness for C6: a concrete PRNG stream, one transient failure before
the builder succeeds, and the username at alice example org. -/
theorem build_client_session_shape_witness :
    ("@alice:example.org").toList =
        ("@alice").toList ++ ':' :: ("example.org").toList ∧
    ':' ∉ ("@alice").toList ∧
    ClientSession.homeserver ⟨"https://example.org", "data/BCDEFGH", "IJKLMNOPQRSTUVWXYZabcdefghijklmn"⟩ =
        "https://" ++ "example.org" ∧
    ClientSession.db_path ⟨"https://example.org", "data/BCDEFGH", "IJKLMNOPQRSTUVWXYZabcdefghijklmn"⟩ =
        "data" ++ "/" ++ genAlphanumericString (fun n => n + 1) 0 7 ∧
    (genAlphanumericString (fun n => n + 1) 0 7).length = 7 ∧
    (∀ c ∈ (genAlphanumericString (fun n => n + 1) 0 7).toList, c ∈ alphanumericChars) ∧
    ClientSession.passphrase ⟨"https://example.org", "data/BCDEFGH", "IJKLMNOPQRSTUVWXYZabcdefghijklmn"⟩ =
        genAlphanumericString (fun n => n + 1) 7 32 ∧
    (genAlphanumericString (fun n => n + 1) 7 32).length = 32 ∧
    (∀ c ∈ (genAlphanumericString (fun n => n + 1) 7 32).toList, c ∈ alphanumericChars) ∧
    (∀ brs2 client2 cs2,
      build_client (fun n => n + 1) brs2 ⟨"@alice:example.org", "pw"⟩ "data" =
          some (.ok (client2, cs2)) →
        cs2 = ⟨"https://example.org", "data/BCDEFGH", "IJKLMNOPQRSTUVWXYZabcdefghijklmn"⟩) :=
  build_client_session_shape (fun n => n + 1)
    [Except.error BuildError.http, Except.ok ()] ⟨"@alice:example.org", "pw"⟩ "data"
    ⟨"https://example.org", "data/BCDEFGH", "IJKLMNOPQRSTUVWXYZabcdefghijklmn"⟩
    ⟨"https://example.org", "data/BCDEFGH", "IJKLMNOPQRSTUVWXYZabcdefghijklmn"⟩
    "@alice" "example.org" (by rfl) (by rfl)

/-! C10 -/

/-- C10: build_client panics at the unwrap of split_once whenever the
username contains no colon, and under the precondition that the username
contains a colon that panic branch is unreachable: no outcome of the
builder loop is a panic. -/
theorem build_client_colon_unwrap
    (rng : Nat → Nat) (brs : List (Except BuildError Unit))
    (credentials : Credentials) (data_dir : String) :
    (':' ∉ credentials.username.toList →
      build_client rng brs credentials data_dir =
        some (.panicked "called Option::unwrap on a None value")) ∧
    (':' ∈ credentials.username.toList →
      ∀ r, build_client rng brs credentials data_dir = some r →
        r.isPanicked = false) := by
  constructor
  · intro hno
    have hgone : splitOnceColon credentials.username = none := by
      cases hgo : splitOnceColon credentials.username with
      | none => rfl
      | some ab =>
        obtain ⟨a, b⟩ := ab
        have h1 := (splitOnceColon_spec credentials.username a b hgo).1
        exact absurd (h1 ▸ (by simp : ':' ∈ a.toList ++ ':' :: b.toList)) hno
    unfold build_client
    rw [hgone]
  · intro hmem r hr
    unfold build_client at hr
    cases hgo : splitOnceColon credentials.username with
    | none =>
      exfalso
      cases hgo2 : splitOnceColon.go credentials.username.toList with
      | none => exact ((splitOnceColon_go_none _).mp hgo2) hmem
      | some ab =>
        obtain ⟨a0, b0⟩ := ab
        unfold splitOnceColon at hgo
        rw [hgo2] at hgo
        exact Option.noConfusion hgo
    | some ab =>
      obtain ⟨a, b⟩ := ab
      rw [hgo] at hr
      exact buildLoop_not_panicked _ _ _ _ r hr

/-- Witness for C10: the colon-free username panics, and with the colon the
concrete successful outcome is not a panic. -/
theorem build_client_colon_unwrap_witness :
    build_client (fun _ => 0) [] ⟨"alice", "pw"⟩ "data" =
      some (.panicked "called Option::unwrap on a None value") ∧
    Res.isPanicked
      (Res.ok (α := MatrixClient × ClientSession)
        (⟨"https://example.org", "data/AAAAAAA", "AAAAAAAAAAAAAAAAAAAAAAAAAAAAAAAA"⟩,
         ⟨"https://example.org", "data/AAAAAAA", "AAAAAAAAAAAAAAAAAAAAAAAAAAAAAAAA"⟩)) = false :=
  ⟨(build_client_colon_unwrap (fun _ => 0) [] ⟨"alice", "pw"⟩ "data").1 (by decide),
   (build_client_colon_unwrap (fun _ => 0) [Except.ok ()]
      ⟨"@alice:example.org", "pw"⟩ "data").2 (by decide) _ (by rfl)⟩

/-! C4 -/

/-- C4: the room-message handler enqueues a message on the outbound channel
exactly when the room is joined, the sender differs from the authenticated
user and the message type is plain text; the enqueued message carries the
event sender, the text body and the current wall clock. -/
theorem on_room_message_filter (event : RoomMessageEvent) (room : Room) (now : Nat)
    (chan : List ClientMessage) (uid : String)
    (huid : room.clientUserId = some uid) :
    (∀ body, event.msgtype = .text body → room.state = .joined → uid ≠ event.sender →
       on_room_message event room now chan =
         .ok (chan ++ [.newMessage
           { sender := event.sender, contents := body, timestamp := now }])) ∧
    ((room.state ≠ .joined ∨ uid = event.sender ∨ ∀ body, event.msgtype ≠ .text body) →
       on_room_message event room now chan = .ok chan) := by
  constructor
  · rintro body hbody hjoined hne
    simp [on_room_message, hjoined, huid, hne, hbody]
  · rintro (hstate | heq | hnotext)
    · simp [on_room_message, hstate]
    · by_cases hj : room.state = .joined
      · simp [on_room_message, hj, huid, heq]
      · simp [on_room_message, hj]
    · by_cases hj : room.state = .joined
      · by_cases heq2 : uid = event.sender
        · simp [on_room_message, hj, huid, heq2]
        · cases hmt : event.msgtype with
          | text body => exact absurd hmt (hnotext body)
          | image => simp [on_room_message, hj, huid, heq2, hmt]
          | notice => simp [on_room_message, hj, huid, heq2, hmt]
          | emote => simp [on_room_message, hj, huid, heq2, hmt]
          | otherType => simp [on_room_message, hj, huid, heq2, hmt]
      · simp [on_room_message, hj]

/-- Witness for C4: a joined room, a remote sender and a plain-text body
produce exactly the expected enqueued message. -/
theorem on_room_message_filter_witness :
    on_room_message ⟨"@bob:example.org", .text "hi"⟩
        ⟨RoomState.joined, some "@alice:example.org", some "room", "!r:example.org"⟩ 5 [] =
      .ok ([] ++ [.newMessage ⟨"@bob:example.org", "hi", 5⟩]) :=
  (on_room_message_filter ⟨"@bob:example.org", .text "hi"⟩
      ⟨RoomState.joined, some "@alice:example.org", some "room", "!r:example.org"⟩ 5 []
      "@alice:example.org" rfl).1 "hi" rfl rfl (by decide)

/-! C7 -/

/-- The UI state before login has completed, with composed text pending. -/
def preLoginState : UIClient :=
  { username := "@alice:example.org", compose_value := "hello", messages := [],
    client := none, sync_token := none, roomid := "!room:example.org" }

/-- C7 counterexample: with non-empty composed text but no logged-in client
handle, update on MessageSubmitted issues no Outbound Dispatcher send, so
the claim that every non-empty submission spawns the send fails. -/
theorem update_submit_counterexample :
    preLoginState.compose_value ≠ "" ∧
    (update preLoginState 0 ClientMessage.messageSubmitted).2.spawnsSend = false :=
  ⟨by decide, rfl⟩

/-- C7 amended: on MessageSubmitted with an empty composer the state is
unchanged and no command is issued; with non-empty text exactly one local
echo message with the local username and the composed text is appended, the
composer is cleared, and the command is the scroll-to-end snap batched with
the spawned Outbound Dispatcher send for the pinned room when a client
handle is present, the scroll-to-end snap alone when it is not. -/
theorem update_submit_amended (st : UIClient) (now : Nat) :
    (st.compose_value = "" →
       update st now .messageSubmitted = (st, .none)) ∧
    (st.compose_value ≠ "" →
       (update st now .messageSubmitted).1.messages =
         st.messages ++
           [{ sender := st.username, contents := st.compose_value, timestamp := now }] ∧
       (update st now .messageSubmitted).1.compose_value = "" ∧
       (update st now .messageSubmitted).1.username = st.username ∧
       (update st now .messageSubmitted).1.client = st.client ∧
       (update st now .messageSubmitted).1.roomid = st.roomid ∧
       (update st now .messageSubmitted).1.sync_token = st.sync_token ∧
       (∀ client, st.client = some client →
          (update st now .messageSubmitted).2 =
            .batch [.scrollSnapToEnd,
                    .performSendMessage client st.roomid st.compose_value]) ∧
       (st.client = none →
          (update st now .messageSubmitted).2 = .scrollSnapToEnd)) := by
  constructor
  · intro h
    simp [update, h]
  · intro h
    cases hcl : st.client with
    | some client => simp [update, if_neg h, hcl]
    | none => simp [update, if_neg h, hcl]

/-- The UI state after login has completed, with composed text pending. -/
def loggedInState : UIClient :=
  { username := "@alice:example.org", compose_value := "hello", messages := [],
    client := some ⟨"https://example.org", "data/AbCdEfG", "p"⟩, sync_token := some "T0",
    roomid := "!room:example.org" }

/-- Witness for the amended C7 at a logged-in state with composed text. -/
theorem update_submit_amended_witness :
    (update loggedInState 7 .messageSubmitted).1.messages =
      loggedInState.messages ++
        [{ sender := loggedInState.username, contents := loggedInState.compose_value,
           timestamp := 7 }] ∧
    (update loggedInState 7 .messageSubmitted).1.compose_value = "" ∧
    (update loggedInState 7 .messageSubmitted).1.username = loggedInState.username ∧
    (update loggedInState 7 .messageSubmitted).1.client = loggedInState.client ∧
    (update loggedInState 7 .messageSubmitted).1.roomid = loggedInState.roomid ∧
    (update loggedInState 7 .messageSubmitted).1.sync_token = loggedInState.sync_token ∧
    (∀ client, loggedInState.client = some client →
       (update loggedInState 7 .messageSubmitted).2 =
         .batch [.scrollSnapToEnd,
                 .performSendMessage client loggedInState.roomid
                   loggedInState.compose_value]) ∧
    (loggedInState.client = none →
       (update loggedInState 7 .messageSubmitted).2 = .scrollSnapToEnd) :=
  (update_submit_amended loggedInState 7).2 (by decide)

/-- The restore path issues no password login, and on success it returns
the persisted sync_token and a client rebuilt from the stored
ClientSession. -/
theorem restore_session_spec (renv : RestoreEnv) (file : Option Json) :
    (∀ u p d, AuthEffect.loginRequest u p d ∉ (restore_session renv file).2) ∧
    (∀ client token, (restore_session renv file).1 = .ok (client, token) →
       ∃ content fs, file = some content ∧
         deserializeFullSession content = some fs ∧
         token = fs.sync_token ∧
         client = ⟨fs.client_session.homeserver, fs.client_session.db_path,
                   fs.client_session.passphrase⟩) := by
  unfold restore_session
  cases file with
  | none => simp
  | some content =>
    cases hparse : deserializeFullSession content with
    | none => simp [hparse]
    | some fs =>
      cases hb : renv.buildOk with
      | error e => simp [hparse]
      | ok u =>
        cases hr : renv.restoreOk with
        | error e => simp [hparse]
        | ok v =>
          refine ⟨by simp [hparse], ?_⟩
          intro client token h
          simp only [hparse, Res.ok.injEq, Prod.mk.injEq] at h
          exact ⟨content, fs, rfl, hparse, h.2.symm, h.1.symm⟩

/-- A successful fresh login writes the session file and issued exactly one
password login request. -/
theorem login_ok_spec (lenv : LoginEnv) (credentials : Credentials) (data_dir : String)
    (file : Option Json) (client : MatrixClient) (file2 : Option Json)
    (tr : List AuthEffect)
    (h : login lenv credentials data_dir file = some (.ok client, file2, tr)) :
    file2.isSome = true ∧
    AuthEffect.loginRequest credentials.username credentials.password "reochat" ∈ tr := by
  unfold login at h
  cases hb : build_client lenv.rng lenv.buildResults credentials data_dir with
  | none => rw [hb] at h; exact Option.noConfusion h
  | some r =>
    rw [hb] at h
    cases r with
    | panicked m => simp at h
    | err e => simp at h
    | ok pair =>
      obtain ⟨cl, cs⟩ := pair
      cases ha : authSession lenv.loginResult lenv.userSession with
      | none => rw [ha] at h; simp at h
      | some us =>
        rw [ha] at h
        by_cases hw : lenv.writeOk
        · simp only [hw, if_true, Option.some.injEq, Prod.mk.injEq, Res.ok.injEq] at h
          obtain ⟨-, h2, h3⟩ := h
          subst h2; subst h3
          simp
        · simp [hw] at h

/-! C1 -/

/-- C1: when the session file exists, run takes the restore path, issues no
password login and on success returns the persisted sync_token together
with a client rebuilt from the stored ClientSession; when it does not
exist, run takes the fresh-login path and on success returns a none sync
token, leaves a written session file behind, and issued the password
login request. -/
theorem run_session_idempotence (env : RunEnv) (credentials : Credentials)
    (res : Res (MatrixClient × Option String)) (file2 : Option Json)
    (tr : List AuthEffect)
    (hrun : run env credentials = some (res, file2, tr)) :
    (∀ content, env.sessionFile = some content →
       (∀ u p d, AuthEffect.loginRequest u p d ∉ tr) ∧
       (∀ client token, res = .ok (client, token) →
          ∃ fs, deserializeFullSession content = some fs ∧
            token = fs.sync_token ∧
            client = ⟨fs.client_session.homeserver, fs.client_session.db_path,
                      fs.client_session.passphrase⟩)) ∧
    (env.sessionFile = none →
       ∀ client token, res = .ok (client, token) →
         token = none ∧ file2.isSome = true ∧
         AuthEffect.loginRequest credentials.username credentials.password "reochat"
           ∈ tr) := by
  constructor
  · intro content hfile
    unfold run at hrun
    rw [hfile] at hrun
    simp only [Option.some.injEq, Prod.mk.injEq] at hrun
    obtain ⟨hres, -, htr⟩ := hrun
    subst hres; subst htr
    obtain ⟨hnl, hok⟩ := restore_session_spec env.restoreEnv (some content)
    refine ⟨hnl, ?_⟩
    intro client token hct
    obtain ⟨content2, fs, hc2, hparse, htok, hcl⟩ := hok client token hct
    obtain rfl : content = content2 := by
      injection hc2
    exact ⟨fs, hparse, htok, hcl⟩
  · intro hfile client token hct
    unfold run at hrun
    rw [hfile] at hrun
    cases hl : login env.loginEnv credentials "data" none with
    | none => rw [hl] at hrun; exact Option.noConfusion hrun
    | some out =>
      obtain ⟨r, f2, tr0⟩ := out
      rw [hl] at hrun
      simp only [Option.some.injEq, Prod.mk.injEq] at hrun
      obtain ⟨hres, hf2, htr⟩ := hrun
      cases r with
      | ok c =>
        rw [← hres] at hct
        simp only [Res.ok.injEq, Prod.mk.injEq] at hct
        obtain ⟨hcl, htok⟩ := hct
        obtain ⟨hw, hm⟩ := login_ok_spec env.loginEnv credentials "data" none c f2 tr0 hl
        exact ⟨htok.symm, hf2 ▸ hw, htr ▸ hm⟩
      | err e => rw [← hres] at hct; simp at hct
      | panicked m => rw [← hres] at hct; simp at hct

/-- Environment for the C1 witness: an existing session file with a
persisted token and a healthy restore path. -/
def restoreRunEnv : RunEnv :=
  { sessionFile := some (serializeFullSession
      { sampleFullSession with sync_token := some "T0" }),
    restoreEnv := { buildOk := .ok (), restoreOk := .ok () },
    loginEnv := { rng := fun _ => 0, buildResults := [], loginResult := .ok (),
                  userSession := sampleUserSession, writeOk := true } }

/-- Witness for C1: a run over an existing session file restores the
persisted token and performs no login. -/
theorem run_session_idempotence_witness :
    (∀ u p d, AuthEffect.loginRequest u p d ∉
       [AuthEffect.restoreSessionCall sampleUserSession]) ∧
    (∀ client token,
       (Res.ok (⟨"https://example.org", "data/AbCdEfG",
                 "0123456789abcdefghijklmnopqrstuv"⟩, some "T0")
         : Res (MatrixClient × Option String)) = .ok (client, token) →
       ∃ fs, deserializeFullSession (serializeFullSession
           { sampleFullSession with sync_token := some "T0" }) = some fs ∧
         token = fs.sync_token ∧
         client = ⟨fs.client_session.homeserver, fs.client_session.db_path,
                   fs.client_session.passphrase⟩) :=
  (run_session_idempotence restoreRunEnv ⟨"@alice:example.org", "pw"⟩
      (.ok (⟨"https://example.org", "data/AbCdEfG",
             "0123456789abcdefghijklmnopqrstuv"⟩, some "T0"))
      (some (serializeFullSession { sampleFullSession with sync_token := some "T0" }))
      [AuthEffect.restoreSessionCall sampleUserSession] (by rfl)).1
    (serializeFullSession { sampleFullSession with sync_token := some "T0" }) rfl

/-! C3 -/

/-- Login environment in which the homeserver rejects the credentials. -/
def rejectedLoginEnv : LoginEnv :=
  { rng := fun _ => 0, buildResults := [Except.ok ()],
    loginResult := .error .authRejected,
    userSession := sampleUserSession, writeOk := true }

/-- C3: at the failing input where the homeserver rejects the credentials,
the fresh-login path does not surface an error result: the match on the
login outcome only logs it and execution continues to the expect on the
absent session, so login ends in a panic, with no session file written.
The claim that every fresh-login error is returned as Err is right about
the intent and the code is wrong. -/
theorem login_rejected_panics :
    login rejectedLoginEnv { username := "@alice:example.org", password := "wrongpw" }
        "data" none =
      some (Res.panicked "A logged-in client should have a session", none,
            [AuthEffect.loginRequest "@alice:example.org" "wrongpw" "reochat"]) := rfl

end Reochat
